import Mathlib

/-!
Shallow embedding of the variant-combination price/stock resolution core of
`src/core/products_collector.py` (method `ProductsCollector.scrape_variant_details`
together with its helpers `get_available_variant_options` and
`click_variant_button`).

The live Selenium page is abstracted as an oracle `Page σ` over an abstract
page-state type `σ`: clicking a variant button may change the page state, while
the read-only queries (option discovery, waiting for the price element, reading
stock text, reading the text found by a CSS selector) only observe it.  Every
function of the embedding additionally returns the trace of page interactions
it performed, so that claims about interactions never attempted are statable.

Python string primitives used by the source (`str.strip`, `str.lower`,
substring containment via `in`, `str.replace`, `re.sub` of the literal pattern
"harga sebelum diskon" plus trailing whitespace, `re.search(r"(\d+)", ...)`
and `int(...)`) are modelled character-exactly on `List Char` below.
`round(x, 1)` is modelled on `ℚ` as correct rounding of the exact value with
ties to even (CPython rounds the exact decimal value of the IEEE double; the
idealisation here works on the exact rational instead of its double image).
-/

/-- Whitespace test matching Python's ASCII whitespace class used by
`str.strip()` and the regex class `\s` on the texts this scraper reads. -/
def isPySpace (c : Char) : Bool :=
  c == ' ' || c == '\t' || c == '\n' || c == '\r' || c == '\x0b' || c == '\x0c'

/-- Python `str.strip()` on a character list. -/
def pyStrip (l : List Char) : List Char :=
  ((l.dropWhile isPySpace).reverse.dropWhile isPySpace).reverse

/-- Python `str.strip()` on a `String`. -/
def pyStripS (s : String) : String := ⟨pyStrip s.data⟩

/-- Python `str.lower()` (ASCII fragment, which covers every text compared by
the source: "habis", "harga sebelum diskon", variant names). -/
def lowerList (l : List Char) : List Char := l.map Char.toLower

/-- Python `str.lower()` on a `String`. -/
def lowerS (s : String) : String := ⟨lowerList s.data⟩

/-- Python substring containment `pat in l` on character lists. -/
def containsList (pat : List Char) : List Char → Bool
  | [] => pat.isEmpty
  | c :: cs => pat.isPrefixOf (c :: cs) || containsList pat cs

/-- Python substring containment `pat in s` on strings. -/
def containsSub (s pat : String) : Bool := containsList pat.data s.data

/-- Value of a list of decimal digit characters. -/
def digitsToNat (l : List Char) : Nat :=
  l.foldl (fun n c => 10 * n + (c.toNat - 48)) 0

/-- Python `re.search(r"(\d+)", ...)`: first maximal run of decimal digits,
if any. -/
def firstIntList : List Char → Option Nat
  | [] => none
  | c :: cs =>
    if c.isDigit then some (digitsToNat ((c :: cs).takeWhile Char.isDigit))
    else firstIntList cs

/-- First integer substring of a string (as used on the stock label text). -/
def firstIntS (s : String) : Option Nat := firstIntList s.data

/-- Python `str.replace(pat, "")`, fuelled so that the recursion is
structural (each step shortens the list by at least one character, so fuel
equal to the list length always suffices). -/
def removeSubFuel (pat : List Char) : Nat → List Char → List Char
  | 0, l => l
  | _ + 1, [] => []
  | fuel + 1, c :: cs =>
    if !pat.isEmpty && pat.isPrefixOf (c :: cs) then
      removeSubFuel pat fuel ((c :: cs).drop pat.length)
    else c :: removeSubFuel pat fuel cs

/-- Python `str.replace(pat, "")`: remove every occurrence of `pat`,
scanning left to right without overlap. -/
def removeSub (pat l : List Char) : List Char := removeSubFuel pat l.length l

/-- The literal pattern of the source's
`re.sub(r"harga sebelum diskon\s*", "", ptxt, flags=re.IGNORECASE)`. -/
def hsdPat : List Char := "harga sebelum diskon".data

/-- Fuelled scanner for `re.sub(r"harga sebelum diskon\s*", "", ...)`
(each step shortens the list by at least one character, so fuel equal to the
list length always suffices). -/
def stripDiscountLabelFuel : Nat → List Char → List Char
  | 0, l => l
  | _ + 1, [] => []
  | fuel + 1, c :: cs =>
    if hsdPat.isPrefixOf (lowerList (c :: cs)) then
      stripDiscountLabelFuel fuel (((c :: cs).drop hsdPat.length).dropWhile isPySpace)
    else c :: stripDiscountLabelFuel fuel cs

/-- Python `re.sub(r"harga sebelum diskon\s*", "", l, flags=re.IGNORECASE)`:
delete each case-insensitive occurrence of the literal together with the
whitespace run following it, scanning left to right without overlap. -/
def stripDiscountLabel (l : List Char) : List Char :=
  stripDiscountLabelFuel l.length l

/-- Digit-run validity tail for Python `int(...)`: digits possibly separated
by single underscores. -/
def intTailOk : List Char → Bool
  | [] => true
  | c :: cs =>
    if c == '_' then
      match cs with
      | [] => false
      | d :: ds => d.isDigit && intTailOk ds
    else c.isDigit && intTailOk cs

/-- Python `int(...)` body validity: nonempty, starts with a digit, digits
possibly separated by single underscores. -/
def intBodyOk : List Char → Bool
  | [] => false
  | c :: cs => c.isDigit && intTailOk cs

/-- Python `int(s)` on an already-stripped string: optional sign, then an
underscore-separated digit run; any other shape raises `ValueError`, which the
source catches (modelled as `none`). -/
def parseIntPy (l : List Char) : Option Int :=
  match l with
  | '-' :: rest =>
    if intBodyOk rest then some (-(digitsToNat (rest.filter (fun c => c != '_')) : Int))
    else none
  | '+' :: rest =>
    if intBodyOk rest then some ((digitsToNat (rest.filter (fun c => c != '_')) : Int))
    else none
  | _ =>
    if intBodyOk l then some ((digitsToNat (l.filter (fun c => c != '_')) : Int))
    else none

/-- The source's price cleaning
`ptxt.replace("Rp", "").replace(".", "").replace(",", "").strip()`. -/
def cleanPrice (s : String) : List Char :=
  pyStrip (removeSub [','] (removeSub ['.'] (removeSub ['R', 'p'] s.data)))

/-- Round a rational to the nearest integer with ties to even (the rounding
CPython's `round` performs on the exact value of its argument). -/
def roundHalfEven (q : ℚ) : ℤ :=
  let f := ⌊q⌋
  let r := q - (f : ℚ)
  if r < 1 / 2 then f
  else if 1 / 2 < r then f + 1
  else if f % 2 = 0 then f else f + 1

/-- Python `round(q, 1)` on the exact rational value. -/
def pyRound1 (q : ℚ) : ℚ := (roundHalfEven (q * 10) : ℚ) / 10

/-- One page interaction performed by the resolver, in order:
clicking a variant button (`click_variant_button`), querying the live enabled
options of an axis (`get_available_variant_options`), waiting for the price
element, reading the stock label, reading a final-price selector, reading an
original-price selector. -/
inductive Event where
  | click (axis opt : String)
  | queryOptions (axis : String)
  | waitPrice
  | readStock
  | readPrice (sel : String)
  | readOrig (sel : String)
deriving DecidableEq

/-- Output record built per successfully priced combination (the dict
appended to `available_variant_details` at products_collector.py:315-327). -/
structure VariantDetail where
  variant_options : List (String × String)
  final_price : Int
  original_price : Int
  stock : Nat
  discount_percent : ℚ
deriving DecidableEq

/-- Oracle abstraction of the live Selenium page driven by the scraper.
`click s axis opt` is `click_variant_button` (its Bool result plus the page
state after the click); `avail s axis` is `get_available_variant_options`
(empty when the axis header or button container cannot be located, or on any
error); `waitPrice s` tells whether the bounded wait for
`p[data-testid='pdpProductPrice']` succeeds; `stockText s` is the text of the
stock label (`none` when reading it raises); `selText s sel` is the stripped
raw text of the first element matching CSS selector `sel` (`none` when the
lookup raises / nothing matches).  Only clicks mutate the page state. -/
structure Page (σ : Type) where
  click : σ → String → String → Bool × σ
  avail : σ → String → List String
  waitPrice : σ → Bool
  stockText : σ → Option String
  selText : σ → String → Option String

/-- The two final-price selector strategies tried in order
(products_collector.py:271). -/
def finalPriceSelectors : List String :=
  ["p[data-testid=\x27pdpProductPrice\x27]", ".css-brw1im-unf-heading"]

/-- The four original-price selector strategies tried in order
(products_collector.py:290-295). -/
def origPriceSelectors : List String :=
  ["p[data-testid=\x27pdpSlashPrice\x27] del",
   "del[data-testid=\x27pdpSlashPrice\x27]",
   "p[color=\x27var(--NN400, #98A3B4)\x27] del",
   ".css-14nwhqu-unf-heading del"]

/-- The loop `for vt, vv in combo.items(): self.click_variant_button(vt, vv)`
(products_collector.py:223-225 and 238-242): click every pair in order,
ignoring the Bool results (failures are only logged). -/
def clickAll (P : Page σ) (s : σ) : List (String × String) → σ × List Event
  | [] => (s, [])
  | (vt, vv) :: rest =>
    let s1 := (P.click s vt vv).2
    let r := clickAll P s1 rest
    (r.1, Event.click vt vv :: r.2)

/-- `itertools.product(*all_option_lists[:-1])` zipped with `keys[:-1]`
(products_collector.py:220): all assignments over the given axes, first axis
varying slowest, each assignment in axis order. -/
def prependEach (k : String) (opts : List String)
    (tails : List (List (String × String))) : List (List (String × String)) :=
  match opts with
  | [] => []
  | o :: rest => tails.map (fun t => (k, o) :: t) ++ prependEach k rest tails

/-- Cross product of the option lists of the given axes in `itertools.product`
order (first axis varies slowest). -/
def comboProduct : List (String × List String) → List (List (String × String))
  | [] => [[]]
  | (k, opts) :: rest => prependEach k opts (comboProduct rest)

/-- The base-application loop (products_collector.py:222-231): for each base in
order, click its options in sequence, re-query the live enabled options of the
last axis, and emit one full candidate per enabled last-axis option.  Page
state is threaded through (selections are never reset between bases). -/
def buildCombos (P : Page σ) (lastK : String) :
    List (List (String × String)) → σ → σ × List (List (String × String)) × List Event
  | [], s => (s, [], [])
  | base :: rest, s =>
    let c := clickAll P s base
    let opts := P.avail c.1 lastK
    let r := buildCombos P lastK rest c.1
    (r.1, opts.map (fun lo => base ++ [(lastK, lo)]) ++ r.2.1,
      c.2 ++ [Event.queryOptions lastK] ++ r.2.2)

/-- The candidate combination list the resolver builds before pricing
(products_collector.py:216-231): for a single axis, one singleton candidate
per live enabled option; for several axes, `buildCombos` over the cross
product of all axes but the last. -/
def candidateCombos (P : Page σ) (s : σ)
    (variants : List (String × List String)) : List (List (String × String)) :=
  match variants with
  | [] => []
  | [(k, _)] => (P.avail s k).map (fun o => [(k, o)])
  | _ =>
    let front := variants.dropLast
    let lastK := ((variants.getLast?).map Prod.fst).getD ""
    (buildCombos P lastK (comboProduct front) s).2.1

/-- The final-price selector loop (products_collector.py:270-286): first
strategy whose text contains "Rp" and no "-" and parses as an int wins; a text
containing "-" is terminal with no price (`final_price = None; break`); a
missing element or a `ValueError` from `int` falls through to the next
strategy. -/
def readFinalPrice (P : Page σ) (s : σ) : List String → Option Int × List Event
  | [] => (none, [])
  | sel :: rest =>
    match P.selText s sel with
    | none =>
      let r := readFinalPrice P s rest
      (r.1, Event.readPrice sel :: r.2)
    | some t0 =>
      let ptxt := pyStripS t0
      if containsSub ptxt "Rp" && !(containsSub ptxt "-") then
        match parseIntPy (cleanPrice ptxt) with
        | some n => (some n, [Event.readPrice sel])
        | none =>
          let r := readFinalPrice P s rest
          (r.1, Event.readPrice sel :: r.2)
      else if containsSub ptxt "-" then (none, [Event.readPrice sel])
      else
        let r := readFinalPrice P s rest
        (r.1, Event.readPrice sel :: r.2)

/-- The original-price selector loop (products_collector.py:289-307): strip the
"harga sebelum diskon" label, then the first strategy whose text contains "Rp"
and parses as an int wins; failures fall through to the next strategy. -/
def readOrigPrice (P : Page σ) (s : σ) : List String → Option Int × List Event
  | [] => (none, [])
  | sel :: rest =>
    match P.selText s sel with
    | none =>
      let r := readOrigPrice P s rest
      (r.1, Event.readOrig sel :: r.2)
    | some t0 =>
      let ptxt : String := ⟨stripDiscountLabel (pyStripS t0).data⟩
      if containsSub ptxt "Rp" then
        match parseIntPy (cleanPrice ptxt) with
        | some n => (some n, [Event.readOrig sel])
        | none =>
          let r := readOrigPrice P s rest
          (r.1, Event.readOrig sel :: r.2)
      else
        let r := readOrigPrice P s rest
        (r.1, Event.readOrig sel :: r.2)

/-- Tail of the per-combination pricing after the stock step
(products_collector.py:269-329): read final and original price, default the
original to the final price when absent, and build the output record with
`discount_percent` per lines 321-326; with no final price the combination is
dropped. -/
def finishPricing (P : Page σ) (s1 : σ) (combo : List (String × String))
    (stock : Nat) (tr : List Event) : Option VariantDetail × σ × List Event :=
  let fr := readFinalPrice P s1 finalPriceSelectors
  let orr := readOrigPrice P s1 origPriceSelectors
  match fr.1 with
  | none => (none, s1, tr ++ fr.2 ++ orr.2)
  | some f =>
    let o := (orr.1).getD f
    let dp : ℚ :=
      if o ≠ 0 ∧ f < o then pyRound1 ((((o : ℚ) - (f : ℚ)) / (o : ℚ)) * 100)
      else 0
    (some ⟨combo, f, o, stock, dp⟩, s1, tr ++ fr.2 ++ orr.2)

/-- One iteration of the pricing loop (products_collector.py:236-329) for one
candidate combination: click its options, wait for the price element (skip on
timeout), read the stock label (skip when it mentions "habis", i.e. sold out;
stock defaults to 0 when absent or unreadable), then price the combination. -/
def priceCombo (P : Page σ) (s : σ) (combo : List (String × String)) :
    Option VariantDetail × σ × List Event :=
  let c := clickAll P s combo
  if P.waitPrice c.1 then
    match P.stockText c.1 with
    | none =>
      finishPricing P c.1 combo 0 (c.2 ++ [Event.waitPrice, Event.readStock])
    | some st0 =>
      let stxt := pyStripS st0
      if containsSub (lowerS stxt) "habis" then
        (none, c.1, c.2 ++ [Event.waitPrice, Event.readStock])
      else
        finishPricing P c.1 combo ((firstIntS stxt).getD 0)
          (c.2 ++ [Event.waitPrice, Event.readStock])
  else (none, c.1, c.2 ++ [Event.waitPrice])

/-- The pricing loop over all candidates (products_collector.py:236-329),
accumulating successfully priced records in traversal order.  `exn = some k`
injects an unexpected exception (one not absorbed by any of the inner
handlers) while candidate `k` is being processed; it aborts the loop with
`Except.error`, carrying the page state and trace so far, to be caught by the
outer handler of `scrape_variant_details`. -/
def priceAll (P : Page σ) (exn : Option Nat) :
    List (List (String × String)) → Nat → σ →
    Except (σ × List Event) (List VariantDetail × σ × List Event)
  | [], _, s => .ok ([], s, [])
  | c :: rest, idx, s =>
    if exn = some idx then .error (s, [])
    else
      let r := priceCombo P s c
      match priceAll P exn rest (idx + 1) r.2.1 with
      | .ok (ds, s2, tr2) =>
        .ok ((match r.1 with | some d => d :: ds | none => ds), s2, r.2.2 ++ tr2)
      | .error (s2, tr2) => .error (s2, r.2.2 ++ tr2)

/-- Body of `scrape_variant_details` (products_collector.py:209-332), i.e. the
code inside the outer `try`: build the candidate list, then price every
candidate.  An injected unexpected exception surfaces as `Except.error`. -/
def scrapeBody (P : Page σ) (s : σ) (variants : List (String × List String))
    (exn : Option Nat) :
    Except (σ × List Event) (List VariantDetail × σ × List Event) :=
  match variants with
  | [] => .ok ([], s, [])
  | [(k, _)] =>
    match priceAll P exn ((P.avail s k).map (fun o => [(k, o)])) 0 s with
    | .ok (ds, s2, tr) => .ok (ds, s2, Event.queryOptions k :: tr)
    | .error (s2, tr) => .error (s2, Event.queryOptions k :: tr)
  | _ =>
    let front := variants.dropLast
    let lastK := ((variants.getLast?).map Prod.fst).getD ""
    let b := buildCombos P lastK (comboProduct front) s
    match priceAll P exn b.2.1 0 b.1 with
    | .ok (ds, s2, tr2) => .ok (ds, s2, b.2.2 ++ tr2)
    | .error (s2, tr2) => .error (s2, b.2.2 ++ tr2)

/-- `scrape_variant_details` (products_collector.py:196-335): run the body
under the outer `try`; any exception reaching it makes the method return the
empty list (products_collector.py:333-335), discarding accumulated entries. -/
def scrape_variant_details (P : Page σ) (s : σ)
    (variants : List (String × List String)) (exn : Option Nat) :
    List VariantDetail × σ × List Event :=
  match scrapeBody P s variants exn with
  | .ok r => r
  | .error (s2, tr) => ([], s2, tr)

/-- Discriminator for `Except` results: `true` on `ok`. -/
def exnOk : Except ε α → Bool
  | .ok _ => true
  | .error _ => false

/-- Assoc-list update used by the concrete test pages: record the currently
selected option of an axis (replace an existing entry, else append). -/
def updateSel (s : List (String × String)) (k v : String) :
    List (String × String) :=
  if s.any (fun p => p.1 == k) then
    s.map (fun p => if p.1 == k then (k, v) else p)
  else s ++ [(k, v)]

/-- Concrete page for the spec's P2 scenario: axis "a" advertises Red and
Blue, axis "b" advertises Small and Large, but once "a" is set to Blue the
live page only reports Small as enabled for "b".  Every combination is in
stock with final price Rp100000 and no slashed price. -/
def pageP2 : Page (List (String × String)) where
  click s vt vv := (true, updateSel s vt vv)
  avail s k :=
    if k == "b" then
      if s.any (fun p => p.1 == "a" && p.2 == "Blue") then ["Small"]
      else ["Small", "Large"]
    else if k == "a" then ["Red", "Blue"]
    else []
  waitPrice _ := true
  stockText _ := some "Stok: 10"
  selText _ sel :=
    if sel == "p[data-testid=\x27pdpProductPrice\x27]" then some "Rp100000"
    else none

/-- The P2 axis input: what the initial scan advertises for the two axes. -/
def axesP2 : List (String × List String) :=
  [("a", ["Red", "Blue"]), ("b", ["Small", "Large"])]

/-- Concrete single-axis page with a discounted price: final price Rp80.000,
slashed original price Rp100.000, stock 5. -/
def pageDisc : Page (List (String × String)) where
  click s vt vv := (true, updateSel s vt vv)
  avail _ k := if k == "ukuran" then ["S"] else []
  waitPrice _ := true
  stockText _ := some "Stok: 5"
  selText _ sel :=
    if sel == "p[data-testid=\x27pdpProductPrice\x27]" then some "Rp80.000"
    else if sel == "p[data-testid=\x27pdpSlashPrice\x27] del" then some "Rp100.000"
    else none

/-- The single-axis input used with `pageDisc`. -/
def axesDisc : List (String × List String) := [("ukuran", ["S"])]

/-- Concrete page whose first final-price selector returns a price range while
the second would return a valid single price. -/
def pageRange : Page (List (String × String)) where
  click s _ _ := (true, s)
  avail _ _ := []
  waitPrice _ := true
  stockText _ := some "Stok: 3"
  selText _ sel :=
    if sel == "p[data-testid=\x27pdpProductPrice\x27]" then
      some "Rp50.000 - Rp100.000"
    else if sel == ".css-brw1im-unf-heading" then some "Rp75000"
    else none

/-- Concrete page whose stock label reports sold out ("Stok habis"). -/
def pageSold : Page (List (String × String)) where
  click s _ _ := (true, s)
  avail _ _ := ["x"]
  waitPrice _ := true
  stockText _ := some "Stok habis"
  selText _ sel :=
    if sel == "p[data-testid=\x27pdpProductPrice\x27]" then some "Rp60000"
    else none

/-- Expected shape of the two-axis candidate enumeration: walk the first
axis's advertised options in order (first axis varying slowest), click each,
re-query the live enabled options of the last axis under that selection, and
emit one full candidate per enabled option, threading the page state. -/
def twoAxisExpected (P : Page σ) (a b : String) :
    List String → σ → List (List (String × String))
  | [], _ => []
  | o :: rest, s =>
    let s1 := (P.click s a o).2
    (P.avail s1 b).map (fun lo => [(a, o), (b, lo)]) ++ twoAxisExpected P a b rest s1

/-- The discount invariant of the spec (§3): `discount_percent = 0` unless
`original_price > final_price`, in which case it is
`round(100*(original_price-final_price)/original_price, 1)`. -/
def discOK (d : VariantDetail) : Prop :=
  (d.final_price < d.original_price →
    d.discount_percent =
      pyRound1 (100 * ((d.original_price : ℚ) - (d.final_price : ℚ)) /
        (d.original_price : ℚ)))
  ∧ (¬ d.final_price < d.original_price → d.discount_percent = 0)

/-- Rounding the exact value zero gives zero. -/
theorem pyRound1_zero : pyRound1 0 = 0 := by
  norm_num [pyRound1, roundHalfEven]

/-- The spec's P3 instance: a final price of 80000 against an original price
of 100000 rounds to exactly 20.0 percent. -/
theorem pyRound1_disc20 :
    pyRound1 ((((100000 : ℤ) : ℚ) - ((80000 : ℤ) : ℚ)) / ((100000 : ℤ) : ℚ) * 100) = 20 := by
  norm_num [pyRound1, roundHalfEven]

/-- Characterization of a successful `finishPricing`: the record carries the
combination, the first resolved final price, the original price defaulted to
the final price, the given stock, and the source's discount expression. -/
theorem finishPricing_char (P : Page σ) (s1 : σ) (combo : List (String × String))
    (stock : Nat) (tr : List Event) (d : VariantDetail)
    (h : (finishPricing P s1 combo stock tr).1 = some d) :
    ∃ f, (readFinalPrice P s1 finalPriceSelectors).1 = some f ∧
      d.variant_options = combo ∧ d.final_price = f ∧
      d.original_price = ((readOrigPrice P s1 origPriceSelectors).1).getD f ∧
      d.stock = stock ∧
      d.discount_percent =
        (if d.original_price ≠ 0 ∧ d.final_price < d.original_price then
          pyRound1 ((((d.original_price : ℚ) - (d.final_price : ℚ)) /
            (d.original_price : ℚ)) * 100)
        else 0) := by
  rcases hf : (readFinalPrice P s1 finalPriceSelectors).1 with _ | f
  · simp [finishPricing, hf] at h
  · simp only [finishPricing, hf] at h
    simp only [Option.some.injEq] at h
    subst h
    exact ⟨f, rfl, rfl, rfl, rfl, rfl, rfl⟩

/-- A successful `priceCombo` is a successful `finishPricing` at the
post-click page state, with the stock parsed from the stock label (0 when the
label is unreadable or holds no integer). -/
theorem priceCombo_char (P : Page σ) (s : σ) (c : List (String × String))
    (d : VariantDetail) (h : (priceCombo P s c).1 = some d) :
    (finishPricing P (clickAll P s c).1 c
      (match P.stockText (clickAll P s c).1 with
       | none => 0
       | some st => (firstIntS (pyStripS st)).getD 0)
      ((clickAll P s c).2 ++ [Event.waitPrice, Event.readStock])).1 = some d := by
  simp only [priceCombo] at h
  split at h
  · split at h
    · exact h
    · split at h
      · simp at h
      · exact h
  · simp at h

/-- Every record a successful `priceCombo` emits satisfies the spec's
discount invariant. -/
theorem priceCombo_discOK (P : Page σ) (s : σ) (c : List (String × String))
    (d : VariantDetail) (h : (priceCombo P s c).1 = some d) : discOK d := by
  obtain ⟨f, _, _, _, _, _, hdp⟩ :=
    finishPricing_char P (clickAll P s c).1 c _ _ d (priceCombo_char P s c d h)
  constructor
  · intro hlt
    by_cases ho : d.original_price = 0
    · rw [hdp, if_neg (by simp [ho])]
      rw [ho]
      simp [div_zero, pyRound1_zero]
    · rw [hdp, if_pos ⟨ho, hlt⟩]
      congr 1
      ring
  · intro hnlt
    rw [hdp, if_neg (fun hc => hnlt hc.2)]

/-- Every record in a successfully completed pricing loop satisfies the
discount invariant. -/
theorem priceAll_mem_discOK (P : Page σ) (exn : Option Nat) :
    ∀ (combos : List (List (String × String))) (idx : Nat) (s : σ)
      (ds : List VariantDetail) (s2 : σ) (tr : List Event),
      priceAll P exn combos idx s = .ok (ds, s2, tr) →
      ∀ d ∈ ds, discOK d
  | [], idx, s, ds, s2, tr, h, d, hd => by
    simp only [priceAll, Except.ok.injEq, Prod.mk.injEq] at h
    obtain ⟨h1, -⟩ := h
    rw [← h1] at hd
    simp at hd
  | c :: rest, idx, s, ds, s2, tr, h, d, hd => by
    simp only [priceAll] at h
    split at h
    · simp at h
    · split at h
      · rename_i ds1 s3 tr3 heq
        split at h
        · rename_i d0 heq2
          simp only [Except.ok.injEq, Prod.mk.injEq] at h
          obtain ⟨hds, -, -⟩ := h
          rw [← hds] at hd
          rcases List.mem_cons.mp hd with hd0 | hd1
          · subst hd0
            exact priceCombo_discOK P s c d heq2
          · exact priceAll_mem_discOK P exn rest (idx + 1) _ ds1 s3 tr3 heq d hd1
        · rename_i heq2
          simp only [Except.ok.injEq, Prod.mk.injEq] at h
          obtain ⟨hds, -, -⟩ := h
          rw [← hds] at hd
          exact priceAll_mem_discOK P exn rest (idx + 1) _ ds1 s3 tr3 heq d hd
      · simp at h

/-- Every record in a successfully completed `scrapeBody` satisfies the
discount invariant. -/
theorem scrapeBody_ok_mem_discOK (P : Page σ) (s : σ)
    (v : List (String × List String)) (exn : Option Nat)
    (ds : List VariantDetail) (s2 : σ) (tr : List Event)
    (h : scrapeBody P s v exn = .ok (ds, s2, tr)) :
    ∀ d ∈ ds, discOK d := by
  intro d hd
  rcases v with _ | ⟨⟨k, opts⟩, tl⟩
  · simp only [scrapeBody, Except.ok.injEq, Prod.mk.injEq] at h
    obtain ⟨h1, -⟩ := h
    rw [← h1] at hd
    simp at hd
  · rcases tl with _ | ⟨q, tl2⟩
    · simp only [scrapeBody] at h
      split at h
      · rename_i ds1 s3 tr3 heq
        simp only [Except.ok.injEq, Prod.mk.injEq] at h
        obtain ⟨hds, -, -⟩ := h
        rw [← hds] at hd
        exact priceAll_mem_discOK P exn _ 0 s ds1 s3 tr3 heq d hd
      · simp at h
    · simp only [scrapeBody] at h
      split at h
      · rename_i ds1 s3 tr3 heq
        simp only [Except.ok.injEq, Prod.mk.injEq] at h
        obtain ⟨hds, -, -⟩ := h
        rw [← hds] at hd
        exact priceAll_mem_discOK P exn _ 0 _ ds1 s3 tr3 heq d hd
      · simp at h

/-- Every record `scrape_variant_details` returns satisfies the discount
invariant. -/
theorem scrape_mem_discOK (P : Page σ) (s : σ)
    (v : List (String × List String)) (exn : Option Nat) (d : VariantDetail)
    (hd : d ∈ (scrape_variant_details P s v exn).1) : discOK d := by
  rcases hb : scrapeBody P s v exn with e | ⟨ds, s2, tr⟩
  · rcases e with ⟨s2, tr⟩
    simp only [scrape_variant_details, hb] at hd
    simp at hd
  · simp only [scrape_variant_details, hb] at hd
    exact scrapeBody_ok_mem_discOK P s v exn ds s2 tr hb d hd

/-- With no injected unexpected exception, the pricing loop always completes:
every per-combination failure pattern is absorbed. -/
theorem priceAll_none_ok (P : Page σ) :
    ∀ (combos : List (List (String × String))) (idx : Nat) (s : σ),
      exnOk (priceAll P none combos idx s) = true
  | [], _, _ => rfl
  | c :: rest, idx, s => by
    simp only [priceAll]
    rw [if_neg (by simp)]
    have ih := priceAll_none_ok P rest (idx + 1) (priceCombo P s c).2.1
    rcases hrec : priceAll P none rest (idx + 1) (priceCombo P s c).2.1 with e | ⟨ds1, s3, tr3⟩
    · rw [hrec] at ih
      simp [exnOk] at ih
    · rfl

/-- With no injected unexpected exception, the pricing loop never errors. -/
theorem priceAll_none_not_error (P : Page σ)
    (combos : List (List (String × String))) (idx : Nat) (s : σ)
    (e : σ × List Event) (h : priceAll P none combos idx s = .error e) : False := by
  have hok := priceAll_none_ok P combos idx s
  rw [h] at hok
  simp [exnOk] at hok

/-- With no injected unexpected exception, the body of
`scrape_variant_details` always completes normally. -/
theorem scrapeBody_none_ok (P : Page σ) (s : σ)
    (v : List (String × List String)) :
    exnOk (scrapeBody P s v none) = true := by
  rcases v with _ | ⟨⟨k, opts⟩, tl⟩
  · rfl
  · rcases tl with _ | ⟨q, tl2⟩
    · simp only [scrapeBody]
      split
      · rfl
      · rename_i s3 tr3 heq
        exact (priceAll_none_not_error P _ _ _ _ heq).elim
    · simp only [scrapeBody]
      split
      · rfl
      · rename_i s3 tr3 heq
        exact (priceAll_none_not_error P _ _ _ _ heq).elim

/-- When option discovery never reports an enabled option (the axis headers
cannot be located), the base-application loop produces no candidates. -/
theorem buildCombos_avail_empty (P : Page σ) (lastK : String)
    (hav : ∀ t k, P.avail t k = []) :
    ∀ (bases : List (List (String × String))) (s : σ),
      (buildCombos P lastK bases s).2.1 = []
  | [], _ => rfl
  | base :: rest, s => by
    simp only [buildCombos]
    rw [hav, buildCombos_avail_empty P lastK hav rest _]
    simp

/-- When option discovery never reports an enabled option, the resolver
returns the empty list (never an error). -/
theorem scrape_avail_empty (P : Page σ) (s : σ)
    (v : List (String × List String)) (hav : ∀ t k, P.avail t k = []) :
    (scrape_variant_details P s v none).1 = [] := by
  rcases v with _ | ⟨⟨k, opts⟩, tl⟩
  · rfl
  · rcases tl with _ | ⟨q, tl2⟩
    · simp only [scrape_variant_details, scrapeBody, hav, List.map_nil]
      rfl
    · simp only [scrape_variant_details, scrapeBody]
      rw [buildCombos_avail_empty P _ hav _ _]
      rfl

/-- A failed combination is simply skipped: the pricing loop for it yields
exactly the records of the remaining candidates, continuing from the page
state the failed attempt left behind. -/
theorem priceAll_skip (P : Page σ) (s s1 : σ) (c : List (String × String))
    (tr1 : List Event) (rest : List (List (String × String))) (idx : Nat)
    (ds : List VariantDetail) (s2 : σ) (tr2 : List Event)
    (hc : priceCombo P s c = (none, s1, tr1))
    (hr : priceAll P none rest (idx + 1) s1 = .ok (ds, s2, tr2)) :
    priceAll P none (c :: rest) idx s = .ok (ds, s2, tr1 ++ tr2) := by
  simp only [priceAll, hc]
  rw [if_neg (by simp)]
  rw [hr]

/-- The two-axis candidate enumeration of `buildCombos` over the cross
product of the first axis alone is exactly `twoAxisExpected`. -/
theorem buildCombos_twoAxis (P : Page σ) (a b : String) :
    ∀ (aopts : List String) (s : σ),
      (buildCombos P b (prependEach a aopts (comboProduct [])) s).2.1 =
        twoAxisExpected P a b aopts s
  | [], _ => rfl
  | o :: rest, s => by
    simp only [comboProduct, prependEach, buildCombos, clickAll, twoAxisExpected,
      List.map_cons, List.map_nil, List.nil_append, List.singleton_append]
    rw [← buildCombos_twoAxis P a b rest (P.click s a o).2]
    simp [comboProduct, prependEach]

/-- For exactly two axes, the candidate list is `twoAxisExpected` on the
first axis's advertised options: the advertised options of the last axis are
never consulted; its live enabled options are re-queried per base instead. -/
theorem candidateCombos_twoAxis (P : Page σ) (s : σ) (a b : String)
    (aopts bopts : List String) :
    candidateCombos P s [(a, aopts), (b, bopts)] = twoAxisExpected P a b aopts s := by
  show (buildCombos P b (comboProduct [(a, aopts)]) s).2.1 = _
  simp only [comboProduct]
  exact buildCombos_twoAxis P a b aopts s

/-- The trace of applying a combination is exactly one click event per
(axis, option) pair, in order. -/
theorem clickAll_trace (P : Page σ) :
    ∀ (pairs : List (String × String)) (s : σ),
      (clickAll P s pairs).2 = pairs.map (fun kv => Event.click kv.1 kv.2)
  | [], _ => rfl
  | (vt, vv) :: rest, s => by
    simp only [clickAll, List.map_cons]
    rw [clickAll_trace P rest _]

/-- With no resolved final price, `finishPricing` drops the combination. -/
theorem finishPricing_none (P : Page σ) (s1 : σ) (combo : List (String × String))
    (stock : Nat) (tr : List Event)
    (h : (readFinalPrice P s1 finalPriceSelectors).1 = none) :
    (finishPricing P s1 combo stock tr).1 = none := by
  simp [finishPricing, h]

/-- C1: for more than one variant axis the resolver enumerates the cross
product of all axes except the last (first axis varying slowest), applies each
base by clicking its options, then re-queries the live enabled options of the
last axis, creating one full candidate per enabled option.  The last axis's
advertised option list is never consulted (first conjunct's right side does
not mention it), and in the spec's P2 scenario the candidates are exactly
Red/Small, Red/Large, Blue/Small — Blue/Large is never attempted. -/
theorem C1_candidate_enumeration :
    (∀ (σ : Type) (P : Page σ) (s : σ) (a b : String) (aopts bopts : List String),
      candidateCombos P s [(a, aopts), (b, bopts)] = twoAxisExpected P a b aopts s)
    ∧ candidateCombos pageP2 [] axesP2 =
        [[("a", "Red"), ("b", "Small")], [("a", "Red"), ("b", "Large")],
         [("a", "Blue"), ("b", "Small")]]
    ∧ [("a", "Blue"), ("b", "Large")] ∉ candidateCombos pageP2 [] axesP2
    ∧ (scrape_variant_details pageP2 [] axesP2 none).1.map VariantDetail.variant_options =
        [[("a", "Red"), ("b", "Small")], [("a", "Red"), ("b", "Large")],
         [("a", "Blue"), ("b", "Small")]] :=
  ⟨fun _ P s a b aopts bopts => candidateCombos_twoAxis P s a b aopts bopts,
   by decide, by decide, by decide⟩

/-- C2: every emitted VariantDetail satisfies the discount invariant
(`discount_percent = 0` unless `original_price > final_price`, else the
rounded percentage), and on a concrete page with final price 80000 and
original price 100000 the emitted discount is exactly 20.0. -/
theorem C2_discount_invariant :
    (∀ (σ : Type) (P : Page σ) (s : σ) (v : List (String × List String))
       (exn : Option Nat) (d : VariantDetail),
       d ∈ (scrape_variant_details P s v exn).1 → discOK d)
    ∧ (scrape_variant_details pageDisc [] axesDisc none).1 =
        [⟨[("ukuran", "S")], 80000, 100000, 5, 20⟩] := by
  constructor
  · intro σ P s v exn d hd
    exact scrape_mem_discOK P s v exn d hd
  · have h : (scrape_variant_details pageDisc [] axesDisc none).1 =
        [⟨[("ukuran", "S")], 80000, 100000, 5,
          pyRound1 ((((100000 : ℤ) : ℚ) - ((80000 : ℤ) : ℚ)) / ((100000 : ℤ) : ℚ) * 100)⟩] := rfl
    rw [h, pyRound1_disc20]

/-- C2 witness: the invariant discharged on the record the concrete
discounted page actually emits. -/
theorem C2_discount_invariant_witness :
    discOK ⟨[("ukuran", "S")], 80000, 100000, 5, 20⟩ :=
  C2_discount_invariant.1 _ pageDisc [] axesDisc none _ (by
    have h : (scrape_variant_details pageDisc [] axesDisc none).1 =
        [⟨[("ukuran", "S")], 80000, 100000, 5,
          pyRound1 ((((100000 : ℤ) : ℚ) - ((80000 : ℤ) : ℚ)) / ((100000 : ℤ) : ℚ) * 100)⟩] := rfl
    rw [h, pyRound1_disc20]
    exact List.mem_singleton.mpr rfl)

/-- C3: when the stock text of a candidate indicates sold-out ("habis"), the
pricer yields no VariantDetail, stops right after the stock read, and its
trace contains no final-price or original-price selector read. -/
theorem C3_sold_out_skip (σ : Type) (P : Page σ) (s : σ)
    (c : List (String × String)) (st : String)
    (hw : P.waitPrice (clickAll P s c).1 = true)
    (hst : P.stockText (clickAll P s c).1 = some st)
    (hhab : containsSub (lowerS (pyStripS st)) "habis" = true) :
    priceCombo P s c =
      (none, (clickAll P s c).1,
        (clickAll P s c).2 ++ [Event.waitPrice, Event.readStock]) ∧
    ∀ e ∈ (priceCombo P s c).2.2, ∀ sel : String,
      e ≠ Event.readPrice sel ∧ e ≠ Event.readOrig sel := by
  have heq : priceCombo P s c =
      (none, (clickAll P s c).1,
        (clickAll P s c).2 ++ [Event.waitPrice, Event.readStock]) := by
    simp only [priceCombo, hw, hst, hhab, if_true]
  refine ⟨heq, ?_⟩
  intro e he sel
  rw [heq] at he
  simp only [clickAll_trace] at he
  rcases List.mem_append.mp he with h1 | h2
  · obtain ⟨kv, -, hkv⟩ := List.mem_map.mp h1
    rw [← hkv]
    exact ⟨by simp, by simp⟩
  · rcases List.mem_cons.mp h2 with h3 | h4
    · rw [h3]
      exact ⟨by simp, by simp⟩
    · rw [List.mem_singleton.mp h4]
      exact ⟨by simp, by simp⟩

/-- C3 witness: the sold-out page drops its combination right after the
stock read. -/
theorem C3_sold_out_skip_witness :
    priceCombo pageSold [] [("a", "x")] =
      (none, (clickAll pageSold [] [("a", "x")]).1,
        (clickAll pageSold [] [("a", "x")]).2 ++ [Event.waitPrice, Event.readStock]) ∧
    ∀ e ∈ (priceCombo pageSold [] [("a", "x")]).2.2, ∀ sel : String,
      e ≠ Event.readPrice sel ∧ e ≠ Event.readOrig sel :=
  C3_sold_out_skip _ pageSold [] [("a", "x")] "Stok habis" rfl rfl (by decide)

/-- C4: a final-price selector whose text contains a hyphen is terminal: the
final price stays unresolved no matter what later fallback selectors would
return, and a combination with no resolved final price is dropped. -/
theorem C4_price_range_terminal :
    (∀ (σ : Type) (P : Page σ) (s : σ) (sel : String) (rest : List String)
       (t : String), P.selText s sel = some t →
       containsSub (pyStripS t) "-" = true →
       (readFinalPrice P s (sel :: rest)).1 = none)
    ∧ (∀ (σ : Type) (P : Page σ) (s : σ) (c : List (String × String)),
       (readFinalPrice P (clickAll P s c).1 finalPriceSelectors).1 = none →
       (priceCombo P s c).1 = none) := by
  constructor
  · intro σ P s sel rest t ht hdash
    simp [readFinalPrice, ht, hdash]
  · intro σ P s c hnone
    simp only [priceCombo]
    split
    · split
      · simp [finishPricing_none P _ c _ _ hnone]
      · split
        · rfl
        · simp [finishPricing_none P _ c _ _ hnone]
    · rfl

/-- C4 witness: on a page whose first final-price selector returns the range
"Rp50.000 - Rp100.000" while the second would return the single price
"Rp75000", the final price stays unresolved and the combination is dropped. -/
theorem C4_price_range_terminal_witness :
    (readFinalPrice pageRange [] (finalPriceSelectors.get ⟨0, by decide⟩ ::
      finalPriceSelectors.drop 1)).1 = none ∧
    (priceCombo pageRange [] [("a", "x")]).1 = none :=
  ⟨C4_price_range_terminal.1 _ pageRange []
      (finalPriceSelectors.get ⟨0, by decide⟩) (finalPriceSelectors.drop 1)
      "Rp50.000 - Rp100.000" rfl (by decide),
   C4_price_range_terminal.2 _ pageRange [] [("a", "x")] (by decide)⟩

/-- C5: with an empty axis set the resolver returns the empty sequence, the
page state is unchanged, and the interaction trace is empty. -/
theorem C5_empty_axes (σ : Type) (P : Page σ) (s : σ) (exn : Option Nat) :
    scrape_variant_details P s [] exn = ([], s, []) := rfl

/-- C6: with no injected unexpected exception the body never errors outward
(every per-combination page-failure pattern is absorbed); when no axis header
information can be located (option discovery always empty) the resolver
returns the empty list rather than raising; and a failed candidate is merely
skipped, the loop continuing with the remaining candidates. -/
theorem C6_error_absorption :
    (∀ (σ : Type) (P : Page σ) (s : σ) (v : List (String × List String)),
      exnOk (scrapeBody P s v none) = true)
    ∧ (∀ (σ : Type) (P : Page σ) (s : σ) (v : List (String × List String)),
      (∀ t k, P.avail t k = []) → (scrape_variant_details P s v none).1 = [])
    ∧ (∀ (σ : Type) (P : Page σ) (s s1 : σ) (c : List (String × String))
        (tr1 : List Event) (rest : List (List (String × String))) (idx : Nat)
        (ds : List VariantDetail) (s2 : σ) (tr2 : List Event),
        priceCombo P s c = (none, s1, tr1) →
        priceAll P none rest (idx + 1) s1 = .ok (ds, s2, tr2) →
        priceAll P none (c :: rest) idx s = .ok (ds, s2, tr1 ++ tr2)) :=
  ⟨fun _ P s v => scrapeBody_none_ok P s v,
   fun _ P s v hav => scrape_avail_empty P s v hav,
   fun _ P s s1 c tr1 rest idx ds s2 tr2 hc hr =>
     priceAll_skip P s s1 c tr1 rest idx ds s2 tr2 hc hr⟩

/-- C6 witness: a page with no locatable axis headers resolves to the empty
list, and a sold-out candidate is skipped with the loop completing. -/
theorem C6_error_absorption_witness :
    (scrape_variant_details pageRange [] axesP2 none).1 = [] ∧
    priceAll pageSold none [[("a", "x")]] 0 [] =
      .ok ([], [], [Event.click "a" "x", Event.waitPrice, Event.readStock] ++ []) :=
  ⟨C6_error_absorption.2.1 _ pageRange [] axesP2 (fun _ _ => rfl),
   C6_error_absorption.2.2 _ pageSold [] [] [("a", "x")]
     [Event.click "a" "x", Event.waitPrice, Event.readStock] [] 0 [] [] []
     (by decide) rfl⟩

/-- C7: resolution is deterministic: two pages answering every query
identically produce identical ordered VariantDetail lists (and identical
final state and trace). -/
theorem C7_deterministic (σ : Type) (P Q : Page σ) (s : σ)
    (v : List (String × List String)) (exn : Option Nat)
    (hc : P.click = Q.click) (ha : P.avail = Q.avail)
    (hw : P.waitPrice = Q.waitPrice) (hs : P.stockText = Q.stockText)
    (ht : P.selText = Q.selText) :
    scrape_variant_details P s v exn = scrape_variant_details Q s v exn := by
  obtain ⟨pc, pa, pw, ps, pt⟩ := P
  obtain ⟨qc, qa, qw, qs, qt⟩ := Q
  cases hc
  cases ha
  cases hw
  cases hs
  cases ht
  rfl

/-- C7 witness: the determinism theorem applied to the concrete P2 page. -/
theorem C7_deterministic_witness :
    scrape_variant_details pageP2 [] axesP2 none =
      scrape_variant_details pageP2 [] axesP2 none :=
  C7_deterministic _ pageP2 pageP2 [] axesP2 none rfl rfl rfl rfl rfl

/-- C8: the stock recorded in an emitted VariantDetail is the first integer
substring of the (stripped) stock text, defaulting to 0 when the text has no
integer or the stock element cannot be read. -/
theorem C8_stock_parse (σ : Type) (P : Page σ) (s : σ)
    (c : List (String × String)) (d : VariantDetail)
    (h : (priceCombo P s c).1 = some d) :
    d.stock =
      (match P.stockText (clickAll P s c).1 with
       | none => 0
       | some st => (firstIntS (pyStripS st)).getD 0) := by
  obtain ⟨f, -, -, -, -, hstock, -⟩ :=
    finishPricing_char P (clickAll P s c).1 c _ _ d (priceCombo_char P s c d h)
  exact hstock

/-- C8 witness: on the concrete discounted page, the emitted stock is the
first integer of "Stok: 5". -/
theorem C8_stock_parse_witness :
    (⟨[("ukuran", "S")], 80000, 100000, 5, 20⟩ : VariantDetail).stock =
      (match pageDisc.stockText (clickAll pageDisc [] [("ukuran", "S")]).1 with
       | none => 0
       | some st => (firstIntS (pyStripS st)).getD 0) :=
  C8_stock_parse _ pageDisc [] [("ukuran", "S")] _ (by
    have h : (priceCombo pageDisc [] [("ukuran", "S")]).1 =
        some ⟨[("ukuran", "S")], 80000, 100000, 5,
          pyRound1 ((((100000 : ℤ) : ℚ) - ((80000 : ℤ) : ℚ)) / ((100000 : ℤ) : ℚ) * 100)⟩ := rfl
    rw [h, pyRound1_disc20])

/-- C9: when the final price resolves but no original-price strategy yields a
value, the emitted record's original price equals its final price and its
discount is 0. -/
theorem C9_orig_defaults (σ : Type) (P : Page σ) (s : σ)
    (c : List (String × String)) (d : VariantDetail)
    (h : (priceCombo P s c).1 = some d)
    (hno : (readOrigPrice P (clickAll P s c).1 origPriceSelectors).1 = none) :
    d.original_price = d.final_price ∧ d.discount_percent = 0 := by
  obtain ⟨f, -, -, hfp, hop, -, hdp⟩ :=
    finishPricing_char P (clickAll P s c).1 c _ _ d (priceCombo_char P s c d h)
  rw [hno] at hop
  simp only [Option.getD_none] at hop
  constructor
  · rw [hop, hfp]
  · rw [hdp, if_neg]
    intro hcon
    rw [hop, hfp] at hcon
    exact lt_irrefl f hcon.2

/-- C9 witness: the P2 page has no slashed price, so the emitted record's
original price equals its final price with discount 0. -/
theorem C9_orig_defaults_witness :
    (⟨[("a", "Red"), ("b", "Small")], 100000, 100000, 10, 0⟩ : VariantDetail).original_price =
      (⟨[("a", "Red"), ("b", "Small")], 100000, 100000, 10, 0⟩ : VariantDetail).final_price ∧
    (⟨[("a", "Red"), ("b", "Small")], 100000, 100000, 10, 0⟩ : VariantDetail).discount_percent = 0 :=
  C9_orig_defaults _ pageP2 [] [("a", "Red"), ("b", "Small")] _ rfl rfl

/-- C10: an unexpected exception escaping the per-combination handling makes
`scrape_variant_details` return the empty list, discarding every record
accumulated so far: the same page that yields 3 records without an exception
yields none when an exception strikes after 2 records were produced. -/
theorem C10_exception_discards :
    (∀ (σ : Type) (P : Page σ) (s : σ) (v : List (String × List String))
       (exn : Option Nat), exnOk (scrapeBody P s v exn) = false →
       (scrape_variant_details P s v exn).1 = [])
    ∧ (scrape_variant_details pageP2 [] axesP2 none).1.length = 3
    ∧ (scrape_variant_details pageP2 [] axesP2 (some 2)).1 = [] := by
  refine ⟨?_, by decide, by decide⟩
  intro σ P s v exn h
  rcases hb : scrapeBody P s v exn with e | r
  · rcases e with ⟨s2, tr⟩
    simp [scrape_variant_details, hb]
  · rw [hb] at h
    simp [exnOk] at h

/-- C10 witness: with an exception injected while processing the second
candidate, the resolver returns the empty list. -/
theorem C10_exception_discards_witness :
    (scrape_variant_details pageP2 [] axesP2 (some 1)).1 = [] :=
  C10_exception_discards.1 _ pageP2 [] axesP2 (some 1) (by decide)

/-- C1 witness: the two-axis enumeration equation instantiated at the
concrete P2 page and axes. -/
theorem C1_candidate_enumeration_witness :
    candidateCombos pageP2 [] [("a", ["Red", "Blue"]), ("b", ["Small", "Large"])] =
      twoAxisExpected pageP2 "a" "b" ["Red", "Blue"] [] :=
  C1_candidate_enumeration.1 _ pageP2 [] "a" "b" ["Red", "Blue"] ["Small", "Large"]

/-- C5 witness: the empty-axes equation instantiated at the concrete P2
page. -/
theorem C5_empty_axes_witness :
    scrape_variant_details pageP2 [] ([] : List (String × List String)) none =
      ([], [], []) :=
  C5_empty_axes _ pageP2 [] none
